import Mathlib

/--
Verification model of the report-formatting, backend-selection,
provider-connection and experiment-execution logic of the QisJob
command-line tool (`src/qisjob/qisjob.pyx` and the `qisjob` driver script).

Python strings are modelled as `List Char` (`PyStr`), dictionaries as
association lists, and the external Qiskit / provider ecosystem as an
explicit environment `Env` of oracle functions.  Side effects on file
handles and network connections are modelled as an explicit event trace.
-/
abbrev PyStr : Type := List Char

/-- Shorthand turning a Lean string literal into the `List Char` model of a
Python string. -/
def S (s : String) : PyStr := s.data

/-- Python truthiness of an optional string: `None` and `""` are falsy. -/
def truthyS : Option PyStr → Bool
  | none => false
  | some s => !s.isEmpty

/-- Python truthiness of an optional int: `None` and `0` are falsy. -/
def truthyN : Option Nat → Bool
  | none => false
  | some n => n != 0

/-- A Qiskit backend as far as QisJob inspects it: its name,
`configuration().n_qubits` and `configuration().simulator`. -/
structure Backend where
  name : PyStr
  n_qubits : Nat
  simulator : Bool
deriving DecidableEq, Repr

/-- `str(backend)` is the backend's name. -/
def backend_str (b : Backend) : PyStr := b.name

/-- A provider handle: the list of backends it serves. -/
structure Provider where
  backends : List Backend
deriving DecidableEq, Repr

/-- The counts dictionary of one experiment: classical bit patterns mapped
to occurrence counts.  Python dict keys are unique; theorems carry that as
a `Nodup` hypothesis. -/
abbrev Counts : Type := List (PyStr × Nat)

/-- Python `dict.get`: the value for the key, if present. -/
def dict_get (d : Counts) (k : PyStr) : Option Nat :=
  match d.find? (fun p => decide (p.1 = k)) with
  | some p => some p.2
  | none => none

/-- `sorted(counts_exp.keys())` from `QisJob.formulate_result`:
the dict keys sorted ascending. -/
def sorted_keys_of (counts_exp : Counts) : List PyStr :=
  List.insertionSort (· ≤ ·) (counts_exp.map Prod.fst)

/-- The `sorted_counts` loop of `QisJob.formulate_result`: for each sorted
key, `counts_exp.get(key)`. -/
def sorted_counts_of (counts_exp : Counts) : List Nat :=
  (sorted_keys_of counts_exp).map (fun k => (dict_get counts_exp k).getD 0)

/-- `QisJob.csv_str`: the description followed by the keys row and the
counts row, each element followed by a semicolon. -/
def csv_str (description : PyStr) (sort_keys : List PyStr) (sort_counts : List Nat) :
    List PyStr :=
  let keys := sort_keys.foldl (fun acc k => acc ++ k ++ S ";") (S "")
  let counts := sort_counts.foldl (fun acc c => acc ++ (Nat.toDigits 10 c) ++ S ";") (S "")
  [description, keys, counts]

/-- The configuration of one `QisJob` instance: the constructor keyword
arguments the modelled methods consult (after `__init__` has stored them;
in particular `provider_name` is stored upper-cased). -/
structure Cfg where
  show_qisjob_version : Bool
  show_q_version : Bool
  provider_name : PyStr
  token : Option PyStr
  url : Option PyStr
  show_configuration : Bool
  show_properties : Bool
  show_backends : Bool
  show_statuses : Bool
  jobs_status : Option Nat
  job_id : Option PyStr
  job_result : Option PyStr
  backend_name : Option PyStr
  qasm_src : Option PyStr
  filepaths : List PyStr
  one_job : Bool
  outfile_path : Option PyStr
  qasm : Bool
  use_aer : Bool
  use_qasm_simulator : Bool
  use_unitary_simulator : Bool
  use_statevector_gpu : Bool
  use_unitary_gpu : Bool
  use_density_matrix_gpu : Bool
  use_sim : Bool
  qvm : Bool
  qvm_as : Bool
  qc_name : Option PyStr
  nuqasm2 : Option PyStr
  num_qubits : Nat
  use_job_monitor : Bool
  job_monitor_filepath : Option PyStr
deriving DecidableEq, Repr

/-- `QisJob.__init__` line `self.provider_name = provider_name.upper()`. -/
def init_provider_name (provider_name : PyStr) : PyStr :=
  provider_name.map Char.toUpper

/-- `QisJob.formulate_result` for one circuit.  Arguments: the
configuration, the bound backend, `datetime.now().isoformat()`, the
`'counts'` entry of `result_exp.data(circ)` (if present), `circ.qasm()`,
and whether an output file handle was passed (`ofh` is `None` only when
called from `qasm_exp`).  Returns the optional CSV record and the lines
the method itself wrote to `ofh` (the optional qasm echo). -/
def formulate_result (cfg : Cfg) (backend : Backend) (now_iso : PyStr)
    (counts? : Option Counts) (circ_qasm : PyStr) (ofh_present : Bool) :
    Option (List PyStr) × List PyStr :=
  let qasm_echo := if cfg.qasm && ofh_present then [circ_qasm] else []
  match counts? with
  | none => (none, qasm_echo)
  | some counts_exp =>
      (some (csv_str (backend_str backend ++ S " " ++ now_iso)
              (sorted_keys_of counts_exp) (sorted_counts_of counts_exp)),
       qasm_echo)

/-- `QisJob.process_result` for one circuit: all lines written to the
output file handle, in order (the qasm echo from `formulate_result`, then
the CSV record if one was produced). -/
def process_result (cfg : Cfg) (backend : Backend) (now_iso : PyStr)
    (counts? : Option Counts) (circ_qasm : PyStr) : List PyStr :=
  match formulate_result cfg backend now_iso counts? circ_qasm true with
  | (some output, echoed) => echoed ++ output
  | (none, echoed) => echoed

/-- The spec's description of the key/count rows: the elements joined with
a semicolon after every element, including the last. -/
def join_trailing_semi (items : List PyStr) : PyStr :=
  match items with
  | [] => S ""
  | k :: ks => k ++ S ";" ++ join_trailing_semi ks

/-- A `QisJob` configuration with every flag off and every optional argument
absent: the constructor defaults. -/
def base_cfg : Cfg where
  show_qisjob_version := false
  show_q_version := false
  provider_name := S "IBMQ"
  token := none
  url := none
  show_configuration := false
  show_properties := false
  show_backends := false
  show_statuses := false
  jobs_status := none
  job_id := none
  job_result := none
  backend_name := none
  qasm_src := none
  filepaths := []
  one_job := false
  outfile_path := none
  qasm := false
  use_aer := false
  use_qasm_simulator := false
  use_unitary_simulator := false
  use_statevector_gpu := false
  use_unitary_gpu := false
  use_density_matrix_gpu := false
  use_sim := false
  qvm := false
  qvm_as := false
  qc_name := none
  nuqasm2 := none
  num_qubits := 5
  use_job_monitor := false
  job_monitor_filepath := none

/-- A concrete hardware backend used by witnesses. -/
def backend_w : Backend where
  name := S "ibmq_lima"
  n_qubits := 5
  simulator := false

/-- A concrete counts dictionary used by witnesses. -/
def counts_w : Counts := [(S "10", 500), (S "01", 24)]

/-- The configuration of the C4 counterexample: qasm echo on, output file
configured. -/
def cfg_c4 : Cfg := { base_cfg with qasm := true, outfile_path := some (S "out.csv") }

/-- The data carried by `QisJobException` (`src/qisjob/qisjob.pyx` lines
1539-1560): the programmer-supplied message and the suggested return value
for an encapsulating script. -/
structure QisJobExceptionData where
  message : PyStr
  retval : Nat
deriving DecidableEq, Repr

/-- The `QisJobArgumentException` subclass: retval 1. -/
def QisJobArgumentException (message : PyStr) : QisJobExceptionData :=
  { message := message, retval := 1 }

/-- The `QisJobRuntimeException` subclass: retval 100. -/
def QisJobRuntimeException (message : PyStr) : QisJobExceptionData :=
  { message := message, retval := 100 }

/-- A Python exception escaping a modelled QisJob method: a typed
`QisJobException`, a `QiskitError` from the underlying ecosystem, or an
untyped interpreter error (`KeyError`, `AttributeError`). -/
inductive PyExc where
  | qisJob (e : QisJobExceptionData)
  | qiskitErr (message : PyStr)
  | keyErr (key : PyStr)
  | attrErr (message : PyStr)
deriving DecidableEq, Repr

/-- The driver script's top-level handler (`src/unnamed/part_000` lines
530-540): `EXITVAL = 0`; on `QisJobException` the exception's `retval`; on
`QiskitError` 200.  Any other exception is uncaught (the interpreter
aborts with a traceback instead of `sys.exit(EXITVAL)`), modelled as
`none`. -/
def driver_exit_value (outcome : Except PyExc Unit) : Option Nat :=
  match outcome with
  | .ok _ => some 0
  | .error (.qisJob e) => some e.retval
  | .error (.qiskitErr _) => some 200
  | .error (.keyErr _) => none
  | .error (.attrErr _) => none

/-- A circuit: the opaque unit of work; QisJob only ever extracts its
`qasm()` source form. -/
structure Circuit where
  qasm : PyStr
deriving DecidableEq, Repr

/-- The external ecosystem as QisJob calls into it: provider account
loaders, backend factories, `least_busy`, the file system, `exec`,
the OpenQASM parsers, and `execute(...).result()`.  `run_job` takes the
resolved GPU method option and the submitted circuits and returns either a
job-failure message or the per-circuit counts data of the completed
result. -/
structure Env where
  ibmq_enable : Provider
  ibmq_load : Option Provider
  qi_provider : Provider
  forest_provider : Provider
  jku_provider : Provider
  aer_get_backend : PyStr → Backend
  forest_get_backend : Option PyStr → Bool → Backend
  least_busy : List Backend → Option Backend
  read_file : PyStr → List PyStr
  stdin_lines : List PyStr
  exec_ns : PyStr → List (PyStr × Circuit)
  nuqasm2_from_qasm : PyStr → List PyStr → Except PyStr Circuit
  nuqasm2_from_qasm_str : PyStr → PyStr → Except PyStr Circuit
  from_qasm_str : PyStr → Except PyStr Circuit
  run_job : Option PyStr → List Circuit → Except PyStr (Circuit → Option Counts)
  now_iso : PyStr

/-- `QisJob.account_fu` together with the four per-family account routines
(`qisjob.pyx` lines 770-807): dispatch on the stored (upper-cased)
provider name.  The result is the provider bound to `self.provider`;
`ok none` means no branch matched and `self.provider` stays `None`.
The IBMQ branch uses `enable_account` when a token was given, otherwise
`load_account`, whose credentials-not-found failure is re-raised as a
`QisJobRuntimeException`. -/
def account_fu (cfg : Cfg) (env : Env) : Except PyExc (Option Provider) :=
  if cfg.provider_name = S "IBMQ" then
    if truthyS cfg.token then .ok (some env.ibmq_enable)
    else
      match env.ibmq_load with
      | some p => .ok (some p)
      | none =>
          .error (.qisJob (QisJobRuntimeException (S "Error loading IBMQ Account")))
  else if cfg.provider_name = S "QI" then .ok (some env.qi_provider)
  else if cfg.provider_name = S "Forest" then .ok (some env.forest_provider)
  else if cfg.provider_name = S "JKU" then .ok (some env.jku_provider)
  else .ok none

/-- A concrete circuit used by witnesses. -/
def circ_w : Circuit := { qasm := S "OPENQASM 2.0;" }

/-- A concrete IBMQ-style provider used by witnesses. -/
def provider_w : Provider :=
  { backends := [ { name := S "ibmq_qasm_simulator", n_qubits := 32, simulator := true },
                  backend_w ] }

/-- A concrete external environment in which every oracle succeeds. -/
def env_w : Env where
  ibmq_enable := provider_w
  ibmq_load := some provider_w
  qi_provider := { backends := [backend_w] }
  forest_provider := { backends := [ { name := S "forest_qvm", n_qubits := 16, simulator := true } ] }
  jku_provider := { backends := [ { name := S "jku_sim", n_qubits := 20, simulator := true } ] }
  aer_get_backend := fun t => { name := t, n_qubits := 32, simulator := true }
  forest_get_backend := fun _ _ => { name := S "qvm", n_qubits := 32, simulator := true }
  least_busy := fun bs => bs.head?
  read_file := fun _ => [S "OPENQASM 2.0;"]
  stdin_lines := [S "OPENQASM 2.0;"]
  exec_ns := fun _ => []
  nuqasm2_from_qasm := fun _ _ => .ok circ_w
  nuqasm2_from_qasm_str := fun _ _ => .ok circ_w
  from_qasm_str := fun _ => .ok circ_w
  run_job := fun _ _ => .ok (fun _ => some counts_w)
  now_iso := S "2026-01-01T00:00:00"

/-- Network/file-system effects of a run, in order of occurrence. -/
inductive Ev where
  | connect (provider_name : PyStr)
  | openR (path : PyStr)
  | openW (path : PyStr)
  | closeF (path : PyStr)
  | writeF (path : Option PyStr) (line : PyStr)
  | submit (n_circuits : Nat)
deriving DecidableEq, Repr

/-- Which arm of `QisJob.choose_backend` produced the backend. -/
inductive Branch where
  | aer
  | qvm
  | named
  | sim
  | qiFallback
  | leastBusy
deriving DecidableEq, Repr

/-- The local-simulator kind resolution at the top of
`QisJob.choose_backend` (lines 814-818): `self.local_simulator_type`,
defaulted in `__init__` to `statevector_simulator`. -/
def local_simulator_type (cfg : Cfg) : PyStr :=
  if cfg.use_qasm_simulator then S "qasm_simulator"
  else if cfg.use_unitary_simulator then S "unitary_simulator"
  else S "statevector_simulator"

/-- The GPU method resolution of `QisJob.choose_backend` (lines 820-826):
`self.method`. -/
def gpu_method (cfg : Cfg) : Option PyStr :=
  if cfg.use_statevector_gpu then some (S "statevector_gpu")
  else if cfg.use_unitary_gpu then some (S "unitary_gpu")
  else if cfg.use_density_matrix_gpu then some (S "density_matrix_gpu")
  else none

/-- Qiskit's `provider.get_backend(name)`: the unique backend of that name,
`none` when no backend (or more than one) matches, which qiskit reports as
`QiskitBackendNotFoundError`.  A `name` of `None` matches every backend. -/
def provider_get_backend (p : Provider) (name? : Option PyStr) : Option Backend :=
  match (match name? with
         | some n => p.backends.filter (fun b => decide (b.name = n))
         | none => p.backends) with
  | [b] => some b
  | _ => none

/-- `str(None)` for the message of a backend lookup that was given no
name. -/
def opt_str (o : Option PyStr) : PyStr :=
  match o with
  | some s => s
  | none => S "None"

/-- The `QisJobRuntimeException` QisJob raises when a named backend lookup
fails (the `except QiskitBackendNotFoundError` wrappers). -/
def backend_not_found_exc (name? : Option PyStr) : PyExc :=
  .qisJob (QisJobRuntimeException (S "Backend " ++ opt_str name? ++ S " not found"))

/-- `QisJob.choose_backend` (`qisjob.pyx` lines 809-883): resolve the local
simulator kind and GPU method, then pick the backend: the Aer branch, the
Forest qvm branch, or - after `account_fu` - the named lookup, the
`ibmq_qasm_simulator` branch for `use_sim`, the QI qubit-count fallback,
or `least_busy` over large-enough non-simulator devices.  Returns the
taken branch and backend (or the raised exception) plus the event trace;
a `None` provider fails with `AttributeError` when `provider.backends()`
is evaluated. -/
def choose_backend (cfg : Cfg) (env : Env) :
    Except PyExc (Branch × Backend) × List Ev :=
  if cfg.use_aer then
    (.ok (.aer, env.aer_get_backend (local_simulator_type cfg)), [])
  else if cfg.qvm || cfg.qvm_as then
    (.ok (.qvm, env.forest_get_backend cfg.backend_name cfg.qvm_as), [])
  else
    match account_fu cfg env with
    | .error e => (.error e, [.connect cfg.provider_name])
    | .ok none =>
        (.error (.attrErr (S "NoneType object has no attribute backends")),
         [.connect cfg.provider_name])
    | .ok (some provider) =>
        let picked : Except PyExc (Branch × Backend) :=
          if truthyS cfg.backend_name then
            match provider_get_backend provider cfg.backend_name with
            | some b => .ok (.named, b)
            | none => .error (backend_not_found_exc cfg.backend_name)
          else if cfg.use_sim then
            match provider_get_backend provider (some (S "ibmq_qasm_simulator")) with
            | some b => .ok (.sim, b)
            | none => .error (.qiskitErr (S "ibmq_qasm_simulator not found"))
          else if cfg.provider_name = S "QI" then
            match provider.backends.find? (fun b => decide (cfg.num_qubits ≤ b.n_qubits)) with
            | some b => .ok (.qiFallback, b)
            | none =>
                .error (.qisJob (QisJobRuntimeException
                  (S "No suitable backend found for qubits")))
          else
            match env.least_busy (provider.backends.filter
                (fun b => decide (cfg.num_qubits ≤ b.n_qubits) && !b.simulator)) with
            | some b => .ok (.leastBusy, b)
            | none =>
                .error (.qisJob (QisJobRuntimeException
                  (S "QiskitError no device found for criteria")))
        (picked, [.connect cfg.provider_name])

/-- The message of the token/url pairing check in `do_it` (lines 641-645). -/
def token_url_msg : PyStr :=
  S "kwargs token and url must be used together for IBMQ provider or not at all"

/-- The message of the argument check of the job-history branches
(lines 694-697). -/
def jobs_require_backend_msg : PyStr :=
  S "kwargs jobs or job_id or job_result also require kwarg backend"

/-- The message of `one_exp`'s missing-backend check (line 1065). -/
def no_backend_msg : PyStr := S "No backend available, quitting."

/-- The message of `multi_exps`'s missing-backend check (line 1203). -/
def no_backend_multi_msg : PyStr := S "No backend {}"

/-- The exception raised by the token/url pairing check. -/
def pairing_exc : PyExc := .qisJob (QisJobArgumentException token_url_msg)

/-- The pairing condition of `do_it` lines 641-642: token truthy without
url, or url truthy without token. -/
def mispaired_credentials (cfg : Cfg) : Bool :=
  (truthyS cfg.token && !truthyS cfg.url) || (truthyS cfg.url && !truthyS cfg.token)

/-- Python `str.strip()`: whitespace removed from both ends. -/
def py_strip (s : PyStr) : PyStr :=
  ((s.dropWhile Char.isWhitespace).reverse.dropWhile Char.isWhitespace).reverse

/-- The job-monitor file events (lines 1149-1157): when the monitor is
requested with a truthy output filepath, that file is opened in write
mode, the monitor runs, and the file is closed. -/
def jm_events (cfg : Cfg) : List Ev :=
  if cfg.use_job_monitor && truthyS cfg.job_monitor_filepath then
    [.openW (opt_str cfg.job_monitor_filepath),
     .closeF (opt_str cfg.job_monitor_filepath)]
  else []

/-- The circuit-construction part of `one_exp` / `multi_exps`
(lines 1079-1107): when a `qc_name` was given, `exec` the source in an
isolated namespace and extract the named symbol (`KeyError` when absent);
otherwise compile with nuqasm2 (translator errors re-raised as
`QisJobRuntimeException`) or with `QuantumCircuit.from_qasm_str`
(whose `QiskitError` propagates). -/
def load_circuit (cfg : Cfg) (env : Env) (source_lines : List PyStr)
    (the_source : PyStr) : Except PyExc Circuit :=
  if truthyS cfg.qc_name then
    match (env.exec_ns the_source).find?
        (fun q => decide (q.1 = opt_str cfg.qc_name)) with
    | some q => .ok q.2
    | none => .error (.keyErr (opt_str cfg.qc_name))
  else if truthyS cfg.nuqasm2 then
    match env.nuqasm2_from_qasm (opt_str cfg.nuqasm2) source_lines with
    | .ok c => .ok c
    | .error e =>
        .error (.qisJob (QisJobRuntimeException (S "Filepath name error " ++ e)))
  else
    match env.from_qasm_str the_source with
    | .ok c => .ok c
    | .error e => .error (.qiskitErr e)

/-- `QisJob.one_exp` (lines 1050-1196): open the input (file or stdin) and
the output sink (file or stdout), fail if no backend is bound, read and
close the input, build the circuit, submit, optionally run the job
monitor, and on a completed result write the report through
`process_result` and close the output file.  File events record only real
files: stdin/stdout are neither opened nor closed. -/
def one_exp (cfg : Cfg) (env : Env) (backend? : Option Backend)
    (filepath_name : Option PyStr) : Except PyExc Unit × List Ev :=
  let in_evs : List Ev := match filepath_name with | some p => [.openR p] | none => []
  let out_evs : List Ev := match cfg.outfile_path with | some p => [.openW p] | none => []
  match backend? with
  | none => (.error (.qisJob (QisJobRuntimeException no_backend_msg)), in_evs ++ out_evs)
  | some backend =>
      let raw_lines := match filepath_name with
        | some p => env.read_file p
        | none => env.stdin_lines
      let close_in : List Ev := match filepath_name with
        | some p => [.closeF p]
        | none => []
      let source_lines := raw_lines.map py_strip
      let the_source := List.intercalate (S "\n") source_lines
      let evs1 := in_evs ++ out_evs ++ close_in
      match load_circuit cfg env source_lines the_source with
      | .error e => (.error e, evs1)
      | .ok circ =>
          match env.run_job (gpu_method cfg) [circ] with
          | .error m =>
              (.error (.qisJob (QisJobRuntimeException (S "Job failure " ++ m))),
               evs1 ++ [.submit 1] ++ jm_events cfg)
          | .ok res =>
              let w_evs := (process_result cfg backend env.now_iso (res circ)
                  circ.qasm).map (fun l => Ev.writeF cfg.outfile_path l)
              let close_out : List Ev := match cfg.outfile_path with
                | some p => [.closeF p]
                | none => []
              (.ok (), evs1 ++ [.submit 1] ++ jm_events cfg ++ w_evs ++ close_out)

/-- The per-file loop of `do_it` (lines 753-754): one job per filepath; an
exception aborts the loop. -/
def exps_loop (cfg : Cfg) (env : Env) (backend : Backend) :
    List PyStr → Except PyExc Unit × List Ev
  | [] => (.ok (), [])
  | f :: fs =>
      match one_exp cfg env (some backend) (some f) with
      | (.error e, evs) => (.error e, evs)
      | (.ok _, evs) =>
          let r := exps_loop cfg env backend fs
          (r.1, evs ++ r.2)

/-- The read-and-build loop of `QisJob.multi_exps` (lines 1220-1275): each
file is opened, read, closed, and compiled to a circuit. -/
def multi_loop (cfg : Cfg) (env : Env) :
    List PyStr → Except PyExc (List Circuit) × List Ev
  | [] => (.ok [], [])
  | f :: fs =>
      let source_lines := (env.read_file f).map py_strip
      let the_source := List.intercalate (S "\n") source_lines
      let evs : List Ev := [.openR f, .closeF f]
      match load_circuit cfg env source_lines the_source with
      | .error e => (.error e, evs)
      | .ok c =>
          match multi_loop cfg env fs with
          | (.ok cs, evs') => (.ok (c :: cs), evs ++ evs')
          | (.error e, evs') => (.error e, evs ++ evs')

/-- `QisJob.multi_exps` (lines 1198-1341): check the backend, open the
output sink, build all circuits, submit them as one job (with the
statevector-gpu method when that flag is set), optionally monitor, and on
completion report each circuit in submission order before closing the
sink. -/
def multi_exps (cfg : Cfg) (env : Env) (backend? : Option Backend) :
    Except PyExc Unit × List Ev :=
  match backend? with
  | none => (.error (.qisJob (QisJobRuntimeException no_backend_multi_msg)), [])
  | some backend =>
      let out_evs : List Ev := match cfg.outfile_path with
        | some p => [.openW p]
        | none => []
      match multi_loop cfg env cfg.filepaths with
      | (.error e, levs) => (.error e, out_evs ++ levs)
      | (.ok circs, levs) =>
          let method := if cfg.use_statevector_gpu
            then some (S "statevector_gpu") else none
          match env.run_job method circs with
          | .error m =>
              (.error (.qisJob (QisJobRuntimeException (S "Job failure " ++ m))),
               out_evs ++ levs ++ [.submit circs.length] ++ jm_events cfg)
          | .ok res =>
              let w_evs := (circs.map (fun c =>
                  (process_result cfg backend env.now_iso (res c) c.qasm).map
                    (fun l => Ev.writeF cfg.outfile_path l))).flatten
              let close_out : List Ev := match cfg.outfile_path with
                | some p => [.closeF p]
                | none => []
              (.ok (), out_evs ++ levs ++ [.submit circs.length] ++ jm_events cfg
                 ++ w_evs ++ close_out)

/-- The submit-and-report part of `QisJob.qasm_exp` (the `try:` block of
lines 1407-1472): submit the built circuit, optionally monitor, and
return the formulated result; `formulate_result` is called with
`ofh = None`, so nothing is written to any sink. -/
def qasm_exp_run (cfg : Cfg) (env : Env) (backend : Backend) (circ : Circuit) :
    Except PyExc (Option (List PyStr)) × List Ev :=
  match env.run_job (gpu_method cfg) [circ] with
  | .error m =>
      (.error (.qisJob (QisJobRuntimeException (S "Job failure " ++ m))),
       [.submit 1] ++ jm_events cfg)
  | .ok res =>
      (.ok (formulate_result cfg backend env.now_iso (res circ) circ.qasm false).1,
       [.submit 1] ++ jm_events cfg)

/-- `QisJob.qasm_exp` (lines 1361-1472): build the circuit from the
in-memory source string (with nuqasm2 when requested, whose failures are
re-raised as `QisJobRuntimeException`), then submit and report. -/
def qasm_exp (cfg : Cfg) (env : Env) (backend : Backend) :
    Except PyExc (Option (List PyStr)) × List Ev :=
  let the_source := cfg.qasm_src.getD []
  if truthyS cfg.nuqasm2 then
    match env.nuqasm2_from_qasm_str (opt_str cfg.nuqasm2) the_source with
    | .ok c => qasm_exp_run cfg env backend c
    | .error e =>
        (.error (.qisJob (QisJobRuntimeException (S "Source error " ++ e))), [])
  else
    match env.from_qasm_str the_source with
    | .ok c => qasm_exp_run cfg env backend c
    | .error e => (.error (.qiskitErr e), [])

/-- The `try: get_backend except QiskitBackendNotFoundError` pattern of the
introspection branches of `do_it`. -/
def get_backend_wrapped (p : Provider) (name? : Option PyStr) : Except PyExc Backend :=
  match provider_get_backend p name? with
  | some b => .ok b
  | none => .error (backend_not_found_exc name?)

/-- The `account_fu` call of an introspection branch of `do_it` followed
by the branch body: an unbound provider fails with `AttributeError` at the
first attribute access. -/
def with_provider (cfg : Cfg) (env : Env) (k : Provider → Except PyExc Unit) :
    Except PyExc Unit × List Ev :=
  match account_fu cfg env with
  | .error e => (.error e, [.connect cfg.provider_name])
  | .ok none =>
      (.error (.attrErr (S "NoneType object has no attribute")),
       [.connect cfg.provider_name])
  | .ok (some p) => (k p, [.connect cfg.provider_name])

/-- `QisJob.do_it` (lines 580-754): the version branches, the token/url
pairing check, the introspection branches, and the job path (backend
selection followed by `qasm_exp`, `one_exp` over stdin, `multi_exps`, or
one `one_exp` per filepath). -/
def do_it (cfg : Cfg) (env : Env) : Except PyExc Unit × List Ev :=
  if cfg.show_qisjob_version then (.ok (), [])
  else if cfg.show_q_version then (.ok (), [])
  else if cfg.provider_name = S "IBMQ" && mispaired_credentials cfg then
    (.error pairing_exc, [])
  else if cfg.show_configuration then
    with_provider cfg env (fun p =>
      match get_backend_wrapped p cfg.backend_name with
      | .error e => .error e
      | .ok _ => .ok ())
  else if cfg.show_properties then
    with_provider cfg env (fun p =>
      match get_backend_wrapped p cfg.backend_name with
      | .error e => .error e
      | .ok _ => .ok ())
  else if cfg.show_backends then
    with_provider cfg env (fun _ => .ok ())
  else if cfg.show_statuses then
    with_provider cfg env (fun p =>
      if truthyS cfg.backend_name then
        match get_backend_wrapped p cfg.backend_name with
        | .error e => .error e
        | .ok _ => .ok ()
      else .ok ())
  else if truthyN cfg.jobs_status || truthyS cfg.job_id || truthyS cfg.job_result then
    if !truthyS cfg.backend_name then
      (.error (.qisJob (QisJobArgumentException jobs_require_backend_msg)), [])
    else
      with_provider cfg env (fun p =>
        match get_backend_wrapped p cfg.backend_name with
        | .error e => .error e
        | .ok _ => .ok ())
  else
    match choose_backend cfg env with
    | (.error e, evs) => (.error e, evs)
    | (.ok (_, bk), evs) =>
        if truthyS cfg.qasm_src then
          let r := qasm_exp cfg env bk
          (r.1.map (fun _ => ()), evs ++ r.2)
        else if cfg.filepaths.isEmpty then
          let r := one_exp cfg env (some bk) none
          (r.1, evs ++ r.2)
        else if cfg.one_job then
          let r := multi_exps cfg env (some bk)
          (r.1, evs ++ r.2)
        else
          let r := exps_loop cfg env bk cfg.filepaths
          (r.1, evs ++ r.2)

/-- One step of the file-system replay for path `p`: `openW` truncates,
`writeF` appends, all other events leave the file alone. -/
def rstep (p : PyStr) (st : Option (List PyStr)) (e : Ev) : Option (List PyStr) :=
  match e with
  | .openW q => if q = p then some [] else st
  | .writeF (some q) l => if q = p then st.map (fun c => c ++ [l]) else st
  | _ => st

/-- Replay of the event trace against one file path: the final content of
the file; `none` means the file was never created. -/
def replay_file (p : PyStr) (evs : List Ev) : Option (List PyStr) :=
  evs.foldl (rstep p) none

/-- The lines written to the given path anywhere in the trace. -/
def writes_to (p : PyStr) (evs : List Ev) : List PyStr :=
  evs.filterMap (fun e =>
    match e with
    | .writeF (some q) l => if q = p then some l else none
    | _ => none)

/-- The paths of file-open events, with multiplicity. -/
def opens_of (evs : List Ev) : List PyStr :=
  evs.filterMap (fun e =>
    match e with
    | .openR p => some p
    | .openW p => some p
    | _ => none)

/-- The paths of file-close events, with multiplicity. -/
def closes_of (evs : List Ev) : List PyStr :=
  evs.filterMap (fun e =>
    match e with
    | .closeF p => some p
    | _ => none)

/-- Modelled from the spec: the driver script's `argparse` mutually
exclusive groups (`GROUPB`/`GROUPC` of `src/unnamed/part_000`) reject a
command line on which two or more flags of one group are set, before a
`QisJob` is constructed. -/
def cli_group_rejects (group_flags : List Bool) : Bool :=
  decide (2 ≤ group_flags.count true)

/-- C2 counterexample configuration: Aer flag, generic simulator flag and
an explicit backend name all set (possible through the `QisJob`
constructor; the CLI parser would reject this combination). -/
def cfg_c2 : Cfg :=
  { base_cfg with use_aer := true, use_sim := true,
                  backend_name := some (S "nonexistent_backend") }

/-- C9 counterexample configuration: both local-simulator kind selectors
set. -/
def cfg_c9 : Cfg :=
  { base_cfg with use_aer := true, use_qasm_simulator := true,
                  use_unitary_simulator := true }

/-- C9 counterexample configuration: all three GPU method selectors set. -/
def cfg_c9_gpu : Cfg :=
  { base_cfg with use_aer := true, use_statevector_gpu := true,
                  use_unitary_gpu := true, use_density_matrix_gpu := true }

/-- C5 counterexample configuration: token without url, but the
version-display branch short-circuits `do_it`. -/
def cfg_c5 : Cfg :=
  { base_cfg with token := some (S "TOKENVALUE"), show_qisjob_version := true }

/-- A token-without-url configuration that reaches the pairing check. -/
def cfg_c5m : Cfg := { base_cfg with token := some (S "TOKENVALUE") }

/-- C6 configuration: an output CSV file is configured. -/
def cfg_c6 : Cfg := { base_cfg with outfile_path := some (S "out.csv") }

/-- C6 witness configuration: output file plus job-monitor output file. -/
def cfg_c6w : Cfg :=
  { base_cfg with outfile_path := some (S "out.csv"), use_job_monitor := true,
                  job_monitor_filepath := some (S "jm.txt") }

/-- An environment in which the submitted job fails. -/
def env_fail : Env := { env_w with run_job := fun _ _ => .error (S "boom") }

/-- C7 configuration: a named embedded circuit to extract. -/
def cfg_c7 : Cfg := { base_cfg with qc_name := some (S "my_circ") }

/-- C10 configuration: two input files, one job per file, output file
configured. -/
def cfg_c10 : Cfg :=
  { base_cfg with outfile_path := some (S "out.csv"),
                  filepaths := [S "a.qasm", S "b.qasm"] }

/-- C10 environment: each file's content is its own path, the parser keeps
the source in the circuit, and the completed job's counts are keyed by
the circuit's source, so distinct files produce distinct records. -/
def env_c10 : Env :=
  { env_w with
      read_file := fun p => [p],
      from_qasm_str := fun s => .ok { qasm := s },
      run_job := fun _ _ => .ok (fun c => some [(c.qasm, 1024)]) }

/-- Witness configuration for C2: an explicit backend name only. -/
def cfg_c2w : Cfg := { base_cfg with backend_name := some (S "ibmq_lima") }

/-- An environment whose IBMQ provider has no backends at all. -/
def env_empty : Env := { env_w with ibmq_load := some { backends := [] } }

theorem foldl_semi (l : List PyStr) (acc : PyStr) :
    l.foldl (fun a k => a ++ k ++ S ";") acc = acc ++ join_trailing_semi l := by
  induction l generalizing acc with
  | nil => simp [join_trailing_semi, S]
  | cons k ks ih =>
      simp only [List.foldl_cons, ih, join_trailing_semi]
      simp [List.append_assoc]

theorem dict_get_isSome_of_mem (d : Counts) (k : PyStr)
    (h : k ∈ d.map Prod.fst) : (dict_get d k).isSome := by
  induction d with
  | nil => simp at h
  | cons p ps ih =>
      by_cases hk : p.1 = k
      · simp [dict_get, List.find?, hk]
      · simp only [List.map_cons, List.mem_cons] at h
        rcases h with h | h
        · exact absurd h.symm hk
        · have := ih h
          simpa [dict_get, List.find?, hk] using this

theorem foldl_semi_nat (l : List Nat) (acc : PyStr) :
    l.foldl (fun a c => a ++ (Nat.toDigits 10 c) ++ S ";") acc
      = acc ++ join_trailing_semi (l.map (Nat.toDigits 10)) := by
  calc l.foldl (fun a c => a ++ (Nat.toDigits 10 c) ++ S ";") acc
      = (l.map (Nat.toDigits 10)).foldl (fun a k => a ++ k ++ S ";") acc :=
        (List.foldl_map (Nat.toDigits 10) (fun a k => a ++ k ++ S ";") l acc).symm
    _ = acc ++ join_trailing_semi (l.map (Nat.toDigits 10)) := foldl_semi _ _

theorem csv_str_eq (description : PyStr) (sort_keys : List PyStr)
    (sort_counts : List Nat) :
    csv_str description sort_keys sort_counts =
      [description, join_trailing_semi sort_keys,
       join_trailing_semi (sort_counts.map (Nat.toDigits 10))] := by
  simp only [csv_str]
  rw [foldl_semi, foldl_semi_nat]
  simp [S]

/-- C1: whenever a completed result holds a counts dictionary for a circuit,
`formulate_result` produces exactly three lines: the description
(backend identity, a space, the timestamp), the sorted keys each followed
by a semicolon, and the corresponding counts each followed by a semicolon;
the keys are strictly ascending without duplicates, there are as many
counts as keys, and the count paired with each key is that key's count in
the dictionary. -/
theorem claim_C1_report_record (cfg : Cfg) (backend : Backend)
    (now_iso circ_qasm : PyStr) (ofh_present : Bool) (counts_exp : Counts)
    (hnd : (counts_exp.map Prod.fst).Nodup) :
    (formulate_result cfg backend now_iso (some counts_exp) circ_qasm ofh_present).1 =
      some [backend_str backend ++ S " " ++ now_iso,
            join_trailing_semi (sorted_keys_of counts_exp),
            join_trailing_semi ((sorted_counts_of counts_exp).map (Nat.toDigits 10))] ∧
    List.Sorted (· < ·) (sorted_keys_of counts_exp) ∧
    (sorted_keys_of counts_exp).length = (sorted_counts_of counts_exp).length ∧
    (∀ kc ∈ (sorted_keys_of counts_exp).zip (sorted_counts_of counts_exp),
      dict_get counts_exp kc.1 = some kc.2) := by
  have hperm := List.perm_insertionSort (α := PyStr) (· ≤ ·) (counts_exp.map Prod.fst)
  refine ⟨?_, ?_, ?_, ?_⟩
  · simp [formulate_result, csv_str_eq]
  · exact List.Sorted.lt_of_le (List.sorted_insertionSort _ _)
      (hperm.nodup_iff.mpr hnd)
  · simp [sorted_counts_of]
  · intro kc hkc
    have hz : (sorted_keys_of counts_exp).zip (sorted_counts_of counts_exp)
        = (sorted_keys_of counts_exp).map
            (fun k => (k, (dict_get counts_exp k).getD 0)) := by
      simpa [sorted_counts_of] using
        (List.zip_map' id (fun k => (dict_get counts_exp k).getD 0)
          (sorted_keys_of counts_exp))
    rw [hz] at hkc
    rcases List.mem_map.mp hkc with ⟨k, hk, rfl⟩
    have hmem : k ∈ counts_exp.map Prod.fst := hperm.subset hk
    rcases Option.isSome_iff_exists.mp (dict_get_isSome_of_mem counts_exp k hmem)
      with ⟨v, hv⟩
    simp [hv]

/-- Witness for C1 at a concrete two-key counts dictionary. -/
theorem claim_C1_report_record_witness :
    (formulate_result base_cfg backend_w (S "2026-01-01T00:00:00") (some counts_w)
        (S "OPENQASM 2.0;") true).1 =
      some [backend_str backend_w ++ S " " ++ S "2026-01-01T00:00:00",
            join_trailing_semi (sorted_keys_of counts_w),
            join_trailing_semi ((sorted_counts_of counts_w).map (Nat.toDigits 10))] ∧
    List.Sorted (· < ·) (sorted_keys_of counts_w) ∧
    (sorted_keys_of counts_w).length = (sorted_counts_of counts_w).length ∧
    (∀ kc ∈ (sorted_keys_of counts_w).zip (sorted_counts_of counts_w),
      dict_get counts_w kc.1 = some kc.2) :=
  claim_C1_report_record base_cfg backend_w (S "2026-01-01T00:00:00")
    (S "OPENQASM 2.0;") true counts_w (by decide)

/-- C4 (amended): when no counts dictionary is present, `formulate_result`
returns `None` and no record line is written; the only line that can reach
the output sink is the qasm echo when the `qasm` flag is set, and with the
flag unset nothing at all is written. -/
theorem claim_C4_amended (cfg : Cfg) (backend : Backend)
    (now_iso circ_qasm : PyStr) :
    (formulate_result cfg backend now_iso none circ_qasm true).1 = none ∧
    process_result cfg backend now_iso none circ_qasm =
      (if cfg.qasm then [circ_qasm] else []) := by
  constructor
  · simp [formulate_result]
  · by_cases hq : cfg.qasm <;> simp [process_result, formulate_result, hq]

/-- C4 counterexample: with the qasm-echo flag set, a circuit without a
counts dictionary still causes a line (the circuit's qasm source) to be
written to the CSV output sink, contradicting "writes no lines at all". -/
theorem claim_C4_counterexample :
    (formulate_result cfg_c4 backend_w (S "2026-01-01T00:00:00") none
        (S "OPENQASM 2.0;") true).1 = none ∧
    process_result cfg_c4 backend_w (S "2026-01-01T00:00:00") none
        (S "OPENQASM 2.0;") = [S "OPENQASM 2.0;"] ∧
    [S "OPENQASM 2.0;"] ≠ ([] : List PyStr) :=
  ⟨rfl, rfl, by decide⟩

/-- C3: the process exit code is a function of the error category: a run
completing without raising exits 0, an argument/configuration error
carries return value 1, a runtime error (such as a bad backend name or a
job failure) carries 100, and a `QiskitError` the system did not
categorize maps to 200 at the top level. -/
theorem claim_C3_exit_codes (m : PyStr) :
    driver_exit_value (.ok ()) = some 0 ∧
    driver_exit_value (.error (.qisJob (QisJobArgumentException m))) = some 1 ∧
    driver_exit_value (.error (.qisJob (QisJobRuntimeException m))) = some 100 ∧
    driver_exit_value (.error (.qiskitErr m)) = some 200 :=
  ⟨rfl, rfl, rfl, rfl⟩

/-- C8 (code bug evidence): `__init__` upper-cases the provider name, so
the IBMQ, QI and JKU branches of `account_fu` match case-insensitively,
but the Forest branch compares the upper-cased name against the
mixed-case literal `"Forest"`: for provider name `Forest` (any casing)
the stored name is `FOREST`, no branch matches, and no provider is bound
(`account_fu` silently leaves `self.provider = None`). -/
theorem claim_C8_provider_dispatch :
    account_fu { base_cfg with provider_name := init_provider_name (S "Forest") } env_w
      = .ok none ∧
    account_fu { base_cfg with provider_name := init_provider_name (S "forest") } env_w
      = .ok none ∧
    init_provider_name (S "Forest") = S "FOREST" ∧
    account_fu { base_cfg with provider_name := init_provider_name (S "ibmq") } env_w
      = .ok (some provider_w) ∧
    account_fu { base_cfg with provider_name := init_provider_name (S "qi") } env_w
      = .ok (some env_w.qi_provider) ∧
    account_fu { base_cfg with provider_name := init_provider_name (S "jku") } env_w
      = .ok (some env_w.jku_provider) :=
  ⟨rfl, rfl, rfl, rfl, rfl, rfl⟩

theorem provider_get_backend_name (p : Provider) (n : PyStr) (b : Backend)
    (h : provider_get_backend p (some n) = some b) : b.name = n := by
  simp only [provider_get_backend] at h
  rcases hf : p.backends.filter (fun b => decide (b.name = n)) with _ | ⟨x, tl⟩
  · rw [hf] at h; cases h
  · rcases tl with _ | ⟨y, tl'⟩
    · rw [hf] at h
      cases h
      have hx : b ∈ p.backends.filter (fun b => decide (b.name = n)) := by
        rw [hf]; exact List.mem_singleton_self b
      simpa using (List.of_mem_filter hx)
    · rw [hf] at h; cases h

theorem provider_get_backend_absent (p : Provider) (n : PyStr)
    (h : ∀ b ∈ p.backends, b.name ≠ n) :
    provider_get_backend p (some n) = none := by
  simp only [provider_get_backend]
  have hf : p.backends.filter (fun b => decide (b.name = n)) = [] := by
    rw [List.filter_eq_nil_iff]
    intro b hb
    simpa using h b hb
  rw [hf]

theorem truthyS_some_of_ne (n : PyStr) (hne : n ≠ []) : truthyS (some n) = true := by
  rcases n with _ | ⟨c, cs⟩
  · exact absurd rfl hne
  · rfl

/-- C2 (amended): provided neither the local Aer-simulator flag nor a
Forest qvm flag is set, an explicit backend name always wins over every
fallback (the generic simulator flag, the QI qubit-count fallback, the
least-busy default): selection can only resolve the named backend through
the named-lookup branch, and when the name is absent from the connected
provider's backends it fails with the backend-not-found runtime error
before any submission. -/
theorem claim_C2_amended (cfg : Cfg) (env : Env) (n : PyStr)
    (ha : cfg.use_aer = false) (hq : cfg.qvm = false) (hqa : cfg.qvm_as = false)
    (hb : cfg.backend_name = some n) (hne : n ≠ []) :
    (∀ br b evs, choose_backend cfg env = (.ok (br, b), evs) →
        br = Branch.named ∧ b.name = n) ∧
    (∀ p, account_fu cfg env = .ok (some p) →
        (∀ b ∈ p.backends, b.name ≠ n) →
        choose_backend cfg env =
          (.error (backend_not_found_exc (some n)), [.connect cfg.provider_name])) := by
  have htr : truthyS (some n) = true := truthyS_some_of_ne n hne
  constructor
  · intro br b evs hcb
    simp only [choose_backend, ha, hq, hqa, hb, htr, Bool.false_eq_true, if_false,
      Bool.or_self, if_true] at hcb
    rcases hacc : account_fu cfg env with e | po
    · rw [hacc] at hcb
      simp at hcb
    · rcases po with _ | p
      · rw [hacc] at hcb
        simp at hcb
      · rw [hacc] at hcb
        simp only [] at hcb
        rcases hpg : provider_get_backend p (some n) with _ | b'
        · rw [hpg] at hcb
          simp at hcb
        · rw [hpg] at hcb
          simp only [Prod.mk.injEq, Except.ok.injEq] at hcb
          obtain ⟨⟨hbr, hbb⟩, -⟩ := hcb
          refine ⟨hbr.symm, ?_⟩
          rw [← hbb]
          exact provider_get_backend_name p n b' hpg
  · intro p hacc habs
    have hnone := provider_get_backend_absent p n habs
    simp only [choose_backend, ha, hq, hqa, hb, htr, Bool.false_eq_true, if_false,
      Bool.or_self, if_true, hacc, hnone]

/-- Witness for C2 at a concrete provider: the named lookup resolves the
named backend, and with the name absent selection fails with the
backend-not-found error. -/
theorem claim_C2_amended_witness :
    (Branch.named = Branch.named ∧ backend_w.name = S "ibmq_lima") ∧
    choose_backend cfg_c2w env_empty =
      (.error (backend_not_found_exc (some (S "ibmq_lima"))),
       [.connect cfg_c2w.provider_name]) :=
  ⟨(claim_C2_amended cfg_c2w env_w (S "ibmq_lima") rfl rfl rfl rfl (by decide)).1
      Branch.named backend_w [Ev.connect (S "IBMQ")] rfl,
   (claim_C2_amended cfg_c2w env_empty (S "ibmq_lima") rfl rfl rfl rfl (by decide)).2
      { backends := [] } rfl (by simp)⟩

/-- C2 counterexample: with the Aer flag also set (possible through the
`QisJob` constructor), a request carrying an explicit backend name and a
satisfied fallback condition resolves the Aer simulator: the explicitly
named backend is not looked up and its absence from the provider's list
raises no error. -/
theorem claim_C2_counterexample :
    choose_backend cfg_c2 env_w =
      (.ok (Branch.aer,
        { name := S "statevector_simulator", n_qubits := 32, simulator := true }), []) ∧
    (S "statevector_simulator" : PyStr) ≠ S "nonexistent_backend" ∧
    (∀ b ∈ provider_w.backends, b.name ≠ S "nonexistent_backend") :=
  ⟨rfl, by decide, by decide⟩

/-- C9 (amended): setting two local-simulator kind selectors (or several
GPU method selectors) simultaneously is not rejected anywhere in the
`QisJob` run: backend selection and submission behave exactly as if only
the highest-priority selector were set (qasm over unitary;
statevector_gpu over unitary_gpu over density_matrix_gpu).  Only the
driver script's mutually exclusive argument groups reject such
combinations, at parse time. -/
theorem claim_C9_amended (cfg : Cfg) (env : Env) :
    (choose_backend
        { cfg with use_qasm_simulator := true, use_unitary_simulator := true } env
      = choose_backend
        { cfg with use_qasm_simulator := true, use_unitary_simulator := false } env) ∧
    (∀ backend? filepath_name,
      one_exp { cfg with use_statevector_gpu := true, use_unitary_gpu := true,
                         use_density_matrix_gpu := true } env backend? filepath_name
        = one_exp { cfg with use_statevector_gpu := true, use_unitary_gpu := false,
                             use_density_matrix_gpu := false } env backend? filepath_name) ∧
    cli_group_rejects [true, true, false, false, false] = true ∧
    cli_group_rejects [true, false, false, false, false] = false :=
  ⟨rfl, fun _ _ => rfl, by decide, by decide⟩

/-- C9 counterexample: a configuration with both kind selectors (and one
with all three GPU selectors) set runs to successful completion: nothing
rejects it before - or after - backend selection; the qasm simulator
silently wins. -/
theorem claim_C9_counterexample :
    (choose_backend cfg_c9 env_w).1 =
      .ok (Branch.aer, { name := S "qasm_simulator", n_qubits := 32, simulator := true }) ∧
    (do_it cfg_c9 env_w).1 = .ok () ∧
    (choose_backend cfg_c9_gpu env_w).1 =
      .ok (Branch.aer,
        { name := S "statevector_simulator", n_qubits := 32, simulator := true }) ∧
    (do_it cfg_c9_gpu env_w).1 = .ok () :=
  ⟨rfl, rfl, rfl, rfl⟩

theorem account_fu_not_pairing (cfg : Cfg) (env : Env) (e : PyExc)
    (h : account_fu cfg env = .error e) : e ≠ pairing_exc := by
  unfold account_fu at h
  repeat' split at h
  all_goals try (simp at h)
  all_goals try subst h
  all_goals simp [pairing_exc, QisJobRuntimeException, QisJobArgumentException]

theorem load_circuit_not_pairing (cfg : Cfg) (env : Env) (sl : List PyStr)
    (src : PyStr) (e : PyExc)
    (h : load_circuit cfg env sl src = .error e) : e ≠ pairing_exc := by
  unfold load_circuit at h
  repeat' split at h
  all_goals try (simp at h)
  all_goals try subst h
  all_goals simp [pairing_exc, QisJobRuntimeException, QisJobArgumentException]

theorem get_backend_wrapped_not_pairing (p : Provider) (name? : Option PyStr)
    (e : PyExc) (h : get_backend_wrapped p name? = .error e) : e ≠ pairing_exc := by
  unfold get_backend_wrapped at h
  repeat' split at h
  all_goals try (simp at h)
  all_goals try subst h
  all_goals simp [backend_not_found_exc, pairing_exc, QisJobRuntimeException,
    QisJobArgumentException]

theorem choose_backend_not_pairing (cfg : Cfg) (env : Env) (e : PyExc)
    (h : (choose_backend cfg env).1 = .error e) : e ≠ pairing_exc := by
  unfold choose_backend at h
  rcases hacc : account_fu cfg env with e' | po
  · rw [hacc] at h
    have hne := account_fu_not_pairing cfg env e' hacc
    repeat' split at h
    all_goals try (simp at h)
    all_goals try subst h
    all_goals first
      | exact hne
      | (simp [pairing_exc, QisJobRuntimeException, QisJobArgumentException,
           backend_not_found_exc]
         done)
      | (rename_i heq
         injection heq with h2
         subst h2
         exact hne)
  · rw [hacc] at h
    rcases po with _ | p
    all_goals repeat' split at h
    all_goals try (simp at h)
    all_goals try subst h
    all_goals first
      | (simp [backend_not_found_exc, pairing_exc, QisJobRuntimeException,
           QisJobArgumentException]
         done)
      | (rename_i heq
         simp at heq)

theorem one_exp_not_pairing (cfg : Cfg) (env : Env) (backend? : Option Backend)
    (fp : Option PyStr) (e : PyExc)
    (h : (one_exp cfg env backend? fp).1 = .error e) : e ≠ pairing_exc := by
  rcases backend? with _ | bk
  · simp only [one_exp] at h
    simp at h
    subst h
    simp [pairing_exc, QisJobRuntimeException, QisJobArgumentException]
  · rcases fp with _ | f
    · simp only [one_exp] at h
      rcases hl : load_circuit cfg env (List.map py_strip env.stdin_lines)
          (List.intercalate (S "\n") (List.map py_strip env.stdin_lines)) with e₁ | c
      all_goals rw [hl] at h
      all_goals dsimp only at h
      · simp at h
        subst h
        exact load_circuit_not_pairing _ _ _ _ _ hl
      · rcases hr : env.run_job (gpu_method cfg) [c] with m | res
        all_goals rw [hr] at h
        all_goals dsimp only at h
        · simp at h
          subst h
          simp [pairing_exc, QisJobRuntimeException, QisJobArgumentException]
        · simp at h
    · simp only [one_exp] at h
      rcases hl : load_circuit cfg env (List.map py_strip (env.read_file f))
          (List.intercalate (S "\n") (List.map py_strip (env.read_file f))) with e₁ | c
      all_goals rw [hl] at h
      all_goals dsimp only at h
      · simp at h
        subst h
        exact load_circuit_not_pairing _ _ _ _ _ hl
      · rcases hr : env.run_job (gpu_method cfg) [c] with m | res
        all_goals rw [hr] at h
        all_goals dsimp only at h
        · simp at h
          subst h
          simp [pairing_exc, QisJobRuntimeException, QisJobArgumentException]
        · simp at h

theorem qasm_exp_run_not_pairing (cfg : Cfg) (env : Env) (backend : Backend)
    (circ : Circuit) (e : PyExc)
    (h : (qasm_exp_run cfg env backend circ).1 = .error e) : e ≠ pairing_exc := by
  unfold qasm_exp_run at h
  rcases hr : env.run_job (gpu_method cfg) [circ] with m | res
  all_goals rw [hr] at h
  all_goals dsimp only at h
  · simp at h
    subst h
    simp [pairing_exc, QisJobRuntimeException, QisJobArgumentException]
  · simp at h

theorem qasm_exp_not_pairing (cfg : Cfg) (env : Env) (backend : Backend) (e : PyExc)
    (h : (qasm_exp cfg env backend).1 = .error e) : e ≠ pairing_exc := by
  simp only [qasm_exp] at h
  split at h
  · rcases hx : env.nuqasm2_from_qasm_str (opt_str cfg.nuqasm2) (cfg.qasm_src.getD [])
        with e₁ | c
    all_goals rw [hx] at h
    all_goals dsimp only at h
    · simp at h
      subst h
      simp [pairing_exc, QisJobRuntimeException, QisJobArgumentException]
    · exact qasm_exp_run_not_pairing _ _ _ _ _ h
  · rcases hx : env.from_qasm_str (cfg.qasm_src.getD []) with e₁ | c
    all_goals rw [hx] at h
    all_goals dsimp only at h
    · simp at h
      subst h
      simp [pairing_exc]
    · exact qasm_exp_run_not_pairing _ _ _ _ _ h

theorem multi_loop_not_pairing (cfg : Cfg) (env : Env) (fs : List PyStr) (e : PyExc)
    (h : (multi_loop cfg env fs).1 = .error e) : e ≠ pairing_exc := by
  induction fs with
  | nil => simp [multi_loop] at h
  | cons f fs ih =>
      simp only [multi_loop] at h
      rcases hl : load_circuit cfg env (List.map py_strip (env.read_file f))
          (List.intercalate (S "\n") (List.map py_strip (env.read_file f))) with e₁ | c
      all_goals rw [hl] at h
      all_goals dsimp only at h
      · simp at h
        subst h
        exact load_circuit_not_pairing _ _ _ _ _ hl
      · rcases hm : multi_loop cfg env fs with ⟨r, evs'⟩
        rw [hm] at h
        rcases r with e₂ | cs
        all_goals dsimp only at h
        · simp at h
          subst h
          exact ih (by rw [hm])
        · simp at h

theorem multi_exps_not_pairing (cfg : Cfg) (env : Env) (backend? : Option Backend)
    (e : PyExc) (h : (multi_exps cfg env backend?).1 = .error e) : e ≠ pairing_exc := by
  rcases backend? with _ | bk
  · simp only [multi_exps] at h
    simp at h
    subst h
    simp [pairing_exc, QisJobRuntimeException, QisJobArgumentException]
  · simp only [multi_exps] at h
    rcases hm : multi_loop cfg env cfg.filepaths with ⟨r, levs⟩
    rw [hm] at h
    rcases r with e₂ | circs
    all_goals dsimp only at h
    · simp at h
      subst h
      exact multi_loop_not_pairing _ _ _ _ (by rw [hm])
    · split at h
      all_goals dsimp only at h
      · simp at h
        subst h
        simp [pairing_exc, QisJobRuntimeException, QisJobArgumentException]
      · simp at h

theorem exps_loop_not_pairing (cfg : Cfg) (env : Env) (backend : Backend)
    (fs : List PyStr) (e : PyExc)
    (h : (exps_loop cfg env backend fs).1 = .error e) : e ≠ pairing_exc := by
  induction fs with
  | nil => simp [exps_loop] at h
  | cons f fs ih =>
      simp only [exps_loop] at h
      rcases ho : one_exp cfg env (some backend) (some f) with ⟨r, evs⟩
      rw [ho] at h
      rcases r with e₁ | u
      all_goals dsimp only at h
      · simp at h
        subst h
        exact one_exp_not_pairing _ _ _ _ _ (by rw [ho])
      · exact ih h

theorem wrapped_match_not_pairing (name? : Option PyStr) (p : Provider) (e' : PyExc)
    (hkp : (match get_backend_wrapped p name? with
            | .error e => (.error e : Except PyExc Unit)
            | .ok _ => .ok ()) = .error e') :
    e' ≠ pairing_exc := by
  rcases hg : get_backend_wrapped p name? with e'' | b
  all_goals rw [hg] at hkp
  all_goals dsimp only at hkp
  · simp at hkp
    subst hkp
    exact get_backend_wrapped_not_pairing p name? e'' hg
  · simp at hkp

theorem with_provider_not_pairing (cfg : Cfg) (env : Env)
    (k : Provider → Except PyExc Unit) (e : PyExc)
    (hk : ∀ p e', k p = .error e' → e' ≠ pairing_exc)
    (h : (with_provider cfg env k).1 = .error e) : e ≠ pairing_exc := by
  unfold with_provider at h
  rcases hacc : account_fu cfg env with e' | po
  · rw [hacc] at h
    dsimp only at h
    simp at h
    subst h
    exact account_fu_not_pairing cfg env e' hacc
  · rcases po with _ | p
    all_goals rw [hacc] at h
    all_goals dsimp only at h
    · simp at h
      subst h
      simp [pairing_exc]
    · exact hk p e h

set_option maxHeartbeats 2000000 in
theorem do_it_not_pairing (cfg : Cfg) (env : Env)
    (hmp : mispaired_credentials cfg = false) (e : PyExc)
    (h : (do_it cfg env).1 = .error e) : e ≠ pairing_exc := by
  simp only [do_it, hmp, Bool.and_false, Bool.false_eq_true, if_false] at h
  split at h
  · simp at h
  · split at h
    · simp at h
    · split at h
      · exact with_provider_not_pairing _ _ _ e
          (fun p e' hkp => wrapped_match_not_pairing _ p e' hkp) h
      · split at h
        · exact with_provider_not_pairing _ _ _ e
            (fun p e' hkp => wrapped_match_not_pairing _ p e' hkp) h
        · split at h
          · exact with_provider_not_pairing _ _ _ e
              (fun p e' hkp => by simp at hkp) h
          · split at h
            · exact with_provider_not_pairing _ _ _ e
                (fun p e' hkp => by
                  split at hkp
                  · exact wrapped_match_not_pairing _ p e' hkp
                  · simp at hkp) h
            · split at h
              · split at h
                · simp at h
                  subst h
                  decide
                · exact with_provider_not_pairing _ _ _ e
                    (fun p e' hkp => wrapped_match_not_pairing _ p e' hkp) h
              · rcases hcb : choose_backend cfg env with ⟨r, evs⟩
                rw [hcb] at h
                rcases r with e₁ | brbk
                all_goals dsimp only at h
                · simp at h
                  subst h
                  exact choose_backend_not_pairing _ _ _ (by rw [hcb])
                · rcases brbk with ⟨br, bk⟩
                  dsimp only at h
                  split at h
                  · rcases hq : (qasm_exp cfg env bk).1 with e₂ | v
                    all_goals rw [hq] at h
                    · simp [Except.map] at h
                      subst h
                      exact qasm_exp_not_pairing _ _ _ _ hq
                    · simp [Except.map] at h
                  · split at h
                    · dsimp only at h
                      exact one_exp_not_pairing _ _ _ _ _ h
                    · split at h
                      · dsimp only at h
                        exact multi_exps_not_pairing _ _ _ _ h
                      · dsimp only at h
                        exact exps_loop_not_pairing _ _ _ _ _ h

/-- C5 (amended): for every configuration that reaches past the two
version-display branches, a mispaired token/url for the IBMQ provider
makes `do_it` raise the `QisJobArgumentException` pairing error
immediately, with an empty event trace - before any provider connection
or other activity; and a configuration whose token/url are paired (both
or neither) never triggers that error anywhere in the run. -/
theorem claim_C5_credential_pairing (cfg : Cfg) (env : Env) :
    (cfg.show_qisjob_version = false → cfg.show_q_version = false →
      cfg.provider_name = S "IBMQ" → mispaired_credentials cfg = true →
      do_it cfg env = (.error pairing_exc, [])) ∧
    (mispaired_credentials cfg = false →
      (do_it cfg env).1 ≠ .error pairing_exc) := by
  constructor
  · intro h1 h2 h3 h4
    simp [do_it, h1, h2, h3, h4]
  · intro hmp hcontra
    exact do_it_not_pairing cfg env hmp pairing_exc hcontra rfl

/-- Witness for C5: a token-without-url run fails with the pairing
argument error and no events; the default configuration never produces
the pairing error. -/
theorem claim_C5_credential_pairing_witness :
    do_it cfg_c5m env_w = (.error pairing_exc, []) ∧
    (do_it base_cfg env_w).1 ≠ .error pairing_exc :=
  ⟨(claim_C5_credential_pairing cfg_c5m env_w).1 rfl rfl rfl rfl,
   (claim_C5_credential_pairing base_cfg env_w).2 rfl⟩

/-- C5 counterexample: a configuration with a token and no url for IBMQ
that also requests the version display raises nothing at all: `do_it`
prints the version and returns, so "every configuration ... raises an
ArgumentError" fails as stated. -/
theorem claim_C5_counterexample :
    mispaired_credentials cfg_c5 = true ∧
    cfg_c5.provider_name = S "IBMQ" ∧
    do_it cfg_c5 env_w = (.ok (), []) :=
  ⟨rfl, rfl, rfl⟩

theorem opens_of_nil : opens_of [] = [] := rfl

theorem closes_of_nil : closes_of [] = [] := rfl

theorem opens_of_cons (e : Ev) (l : List Ev) :
    opens_of (e :: l) =
      (match e with
        | .openR p => [p]
        | .openW p => [p]
        | _ => []) ++ opens_of l := by
  cases e <;> simp [opens_of]

theorem closes_of_cons (e : Ev) (l : List Ev) :
    closes_of (e :: l) =
      (match e with
        | .closeF p => [p]
        | _ => []) ++ closes_of l := by
  cases e <;> simp [closes_of]

theorem opens_of_append (a b : List Ev) :
    opens_of (a ++ b) = opens_of a ++ opens_of b := by
  simp [opens_of]

theorem closes_of_append (a b : List Ev) :
    closes_of (a ++ b) = closes_of a ++ closes_of b := by
  simp [closes_of]

theorem opens_of_map_writeF (t : Option PyStr) (ws : List PyStr) :
    opens_of (ws.map (fun l => Ev.writeF t l)) = [] := by
  induction ws <;> simp_all [opens_of]

theorem closes_of_map_writeF (t : Option PyStr) (ws : List PyStr) :
    closes_of (ws.map (fun l => Ev.writeF t l)) = [] := by
  induction ws <;> simp_all [closes_of]

theorem closes_of_jm (cfg : Cfg) :
    closes_of (jm_events cfg) = opens_of (jm_events cfg) := by
  unfold jm_events
  split <;> simp [opens_of, closes_of]

theorem opens_of_flatten_writes (t : Option PyStr) (f : Circuit → List PyStr)
    (cs : List Circuit) :
    opens_of ((cs.map (fun c => (f c).map (fun l => Ev.writeF t l))).flatten) = [] := by
  induction cs with
  | nil => rfl
  | cons c cs ih => simp [opens_of_append, opens_of_map_writeF, ih]

theorem closes_of_flatten_writes (t : Option PyStr) (f : Circuit → List PyStr)
    (cs : List Circuit) :
    closes_of ((cs.map (fun c => (f c).map (fun l => Ev.writeF t l))).flatten) = [] := by
  induction cs with
  | nil => rfl
  | cons c cs ih => simp [closes_of_append, closes_of_map_writeF, ih]

theorem multi_loop_opens_eq_closes (cfg : Cfg) (env : Env) (fs : List PyStr) :
    opens_of (multi_loop cfg env fs).2 = closes_of (multi_loop cfg env fs).2 := by
  induction fs with
  | nil => rfl
  | cons f fs ih =>
      simp only [multi_loop]
      rcases hl : load_circuit cfg env (List.map py_strip (env.read_file f))
          (List.intercalate (S "\n") (List.map py_strip (env.read_file f))) with e₁ | c
      all_goals dsimp only
      · simp [opens_of_cons, closes_of_cons, opens_of_nil, closes_of_nil]
      · rcases hm : multi_loop cfg env fs with ⟨r, evs'⟩
        rw [hm] at ih
        rcases r with e₂ | cs
        all_goals dsimp only at ih ⊢
        all_goals simp [opens_of_cons, closes_of_cons, opens_of_append,
          closes_of_append, ih]

/-- C6 (amended): on every non-exceptional exit of a single-experiment or
batched run, each file handle opened during the run (input file, output
CSV sink, job-monitor file) is closed exactly once - the open events and
close events are a permutation of one another - and standard input/output
are never opened or closed as files at all. -/
theorem claim_C6_amended :
    (∀ (cfg : Cfg) (env : Env) (backend? : Option Backend) (fp : Option PyStr),
      (one_exp cfg env backend? fp).1 = .ok () →
      (opens_of (one_exp cfg env backend? fp).2).Perm
        (closes_of (one_exp cfg env backend? fp).2)) ∧
    (∀ (cfg : Cfg) (env : Env) (backend? : Option Backend),
      (multi_exps cfg env backend?).1 = .ok () →
      (opens_of (multi_exps cfg env backend?).2).Perm
        (closes_of (multi_exps cfg env backend?).2)) := by
  constructor
  · intro cfg env backend? fp hok
    rcases backend? with _ | bk
    · simp only [one_exp] at hok
      simp at hok
    · rcases fp with _ | f
      all_goals simp only [one_exp] at hok ⊢
      · rcases hl : load_circuit cfg env (List.map py_strip env.stdin_lines)
            (List.intercalate (S "\n") (List.map py_strip env.stdin_lines)) with e₁ | c
        all_goals rw [hl] at hok
        all_goals dsimp only at hok ⊢
        · simp at hok
        · rcases hr : env.run_job (gpu_method cfg) [c] with m | res
          all_goals rw [hr] at hok
          all_goals dsimp only at hok ⊢
          · simp at hok
          · rcases hout : cfg.outfile_path with _ | p
            all_goals simp [opens_of_cons, closes_of_cons, opens_of_append,
              closes_of_append, opens_of_map_writeF, closes_of_map_writeF,
              closes_of_jm, opens_of_nil, closes_of_nil, hout]
            exact (List.perm_append_singleton _ _).symm
      · rcases hl : load_circuit cfg env (List.map py_strip (env.read_file f))
            (List.intercalate (S "\n") (List.map py_strip (env.read_file f))) with e₁ | c
        all_goals rw [hl] at hok
        all_goals dsimp only at hok ⊢
        · simp at hok
        · rcases hr : env.run_job (gpu_method cfg) [c] with m | res
          all_goals rw [hr] at hok
          all_goals dsimp only at hok ⊢
          · simp at hok
          · rcases hout : cfg.outfile_path with _ | p
            all_goals simp [opens_of_cons, closes_of_cons, opens_of_append,
              closes_of_append, opens_of_map_writeF, closes_of_map_writeF,
              closes_of_jm, opens_of_nil, closes_of_nil, hout]
            exact (List.perm_append_singleton _ _).symm
  · intro cfg env backend? hok
    rcases backend? with _ | bk
    · simp only [multi_exps] at hok
      simp at hok
    · simp only [multi_exps] at hok ⊢
      rcases hm : multi_loop cfg env cfg.filepaths with ⟨r, levs⟩
      have hL : opens_of levs = closes_of levs := by
        have hh := multi_loop_opens_eq_closes cfg env cfg.filepaths
        rw [hm] at hh
        exact hh
      rw [hm] at hok
      rcases r with e₂ | circs
      all_goals dsimp only at hok ⊢
      · simp at hok
      · rcases hrun : env.run_job
            (if cfg.use_statevector_gpu = true then some (S "statevector_gpu") else none)
            circs with m | res
        all_goals rw [hrun] at hok
        all_goals dsimp only at hok ⊢
        · simp at hok
        · rcases hout : cfg.outfile_path with _ | p
          all_goals simp [opens_of_cons, closes_of_cons, opens_of_append,
            closes_of_append, opens_of_flatten_writes, closes_of_flatten_writes,
            closes_of_jm, opens_of_nil, closes_of_nil, hout, ← hL]
          simpa [List.append_assoc] using
            (List.perm_append_singleton p
              (opens_of levs ++ opens_of (jm_events cfg))).symm

/-- Witness for C6 at a concrete successful run with an input file, an
output file and a job-monitor file. -/
theorem claim_C6_amended_witness :
    (opens_of (one_exp cfg_c6w env_w (some backend_w) (some (S "a.qasm"))).2).Perm
      (closes_of (one_exp cfg_c6w env_w (some backend_w) (some (S "a.qasm"))).2) :=
  claim_C6_amended.1 cfg_c6w env_w (some backend_w) (some (S "a.qasm")) rfl

/-- C6 counterexample: on exceptional exits the opened handles are not all
closed.  With no backend bound, `one_exp` opens the input file and the
output sink and then raises, with no close events at all; on a job
failure the input file has been closed but the output sink has not.
With a job-monitor file also configured, a job failure still leaks the
output sink, while the input file and the job-monitor file (opened and
closed around the monitor call) are both closed. -/
theorem claim_C6_counterexample :
    (one_exp cfg_c6 env_w none (some (S "a.qasm"))).1 =
      .error (.qisJob (QisJobRuntimeException no_backend_msg)) ∧
    opens_of (one_exp cfg_c6 env_w none (some (S "a.qasm"))).2 =
      [S "a.qasm", S "out.csv"] ∧
    closes_of (one_exp cfg_c6 env_w none (some (S "a.qasm"))).2 = [] ∧
    (one_exp cfg_c6 env_fail (some backend_w) (some (S "a.qasm"))).1 =
      .error (.qisJob (QisJobRuntimeException (S "Job failure " ++ S "boom"))) ∧
    opens_of (one_exp cfg_c6 env_fail (some backend_w) (some (S "a.qasm"))).2 =
      [S "a.qasm", S "out.csv"] ∧
    closes_of (one_exp cfg_c6 env_fail (some backend_w) (some (S "a.qasm"))).2 =
      [S "a.qasm"] ∧
    (one_exp cfg_c6w env_fail (some backend_w) (some (S "a.qasm"))).1 =
      .error (.qisJob (QisJobRuntimeException (S "Job failure " ++ S "boom"))) ∧
    opens_of (one_exp cfg_c6w env_fail (some backend_w) (some (S "a.qasm"))).2 =
      [S "a.qasm", S "out.csv", S "jm.txt"] ∧
    closes_of (one_exp cfg_c6w env_fail (some backend_w) (some (S "a.qasm"))).2 =
      [S "a.qasm", S "jm.txt"] :=
  ⟨rfl, rfl, rfl, rfl, rfl, rfl, rfl, rfl, rfl⟩

/-- C7 (amended): when a circuit object name is given the loader executes
the source in a fresh, isolated namespace and extracts the named symbol;
when the symbol is absent it raises - never a silent no-op - but the
raised error is Python's untyped `KeyError`, not a typed
`QisJobRuntimeException`/SourceError of the system's taxonomy. -/
theorem claim_C7_amended (cfg : Cfg) (env : Env) (sl : List PyStr)
    (src qcn : PyStr) (hqc : cfg.qc_name = some qcn) (hne : qcn ≠ []) :
    ((env.exec_ns src).find? (fun q => decide (q.1 = qcn)) = none →
      load_circuit cfg env sl src = .error (.keyErr qcn)) ∧
    (∀ q, (env.exec_ns src).find? (fun q' => decide (q'.1 = qcn)) = some q →
      load_circuit cfg env sl src = .ok q.2) := by
  have htr : truthyS (some qcn) = true := truthyS_some_of_ne qcn hne
  constructor
  · intro hf
    simp [load_circuit, hqc, htr, opt_str, hf]
  · intro q hf
    simp [load_circuit, hqc, htr, opt_str, hf]

/-- Witness for C7: extracting a named circuit from an empty namespace
raises `KeyError` for that name. -/
theorem claim_C7_amended_witness :
    load_circuit cfg_c7 env_w [] [] = .error (.keyErr (S "my_circ")) :=
  (claim_C7_amended cfg_c7 env_w [] [] (S "my_circ") rfl (by decide)).1 rfl

/-- C7 counterexample: the error raised when the named symbol is absent is
a `KeyError`, which the driver's handlers do not catch (`driver_exit_value`
is `none`: the interpreter aborts with a traceback), whereas a typed
runtime-error variant would map to exit 100. -/
theorem claim_C7_counterexample :
    load_circuit cfg_c7 env_w [S "pass"] (S "pass") = .error (.keyErr (S "my_circ")) ∧
    driver_exit_value (.error (.keyErr (S "my_circ"))) = none ∧
    driver_exit_value (.error (.qisJob (QisJobRuntimeException (S "SourceError")))) =
      some 100 :=
  ⟨rfl, rfl, rfl⟩

theorem jm_events_off (cfg : Cfg) (hjm : cfg.use_job_monitor = false) :
    jm_events cfg = [] := by
  simp [jm_events, hjm]

theorem rstep_openW_self (p : PyStr) (st : Option (List PyStr)) :
    rstep p st (.openW p) = some [] := by
  simp [rstep]

theorem foldl_rstep_writes (p : PyStr) (ws : List PyStr) (acc : List PyStr) :
    List.foldl (rstep p) (some acc) (ws.map (fun l => Ev.writeF (some p) l)) =
      some (acc ++ ws) := by
  induction ws generalizing acc with
  | nil => simp
  | cons w ws ih =>
      simp only [List.map_cons, List.foldl_cons, rstep]
      simp [ih, List.append_assoc]

theorem replay_reset (p : PyStr) (pre rest : List Ev) (o₁ o₂ : Option (List PyStr)) :
    List.foldl (rstep p) o₁ (pre ++ Ev.openW p :: rest) =
    List.foldl (rstep p) o₂ (pre ++ Ev.openW p :: rest) := by
  simp [List.foldl_append, rstep_openW_self]

theorem writes_to_nil (p : PyStr) : writes_to p [] = [] := rfl

theorem writes_to_cons (p : PyStr) (e : Ev) (l : List Ev) :
    writes_to p (e :: l) =
      (match e with
        | .writeF (some q) w => if q = p then [w] else []
        | _ => []) ++ writes_to p l := by
  cases e with
  | writeF t w =>
      cases t with
      | none => simp [writes_to]
      | some q =>
          by_cases hq : q = p
          · simp [writes_to, hq]
          · simp [writes_to, hq]
  | connect n => simp [writes_to]
  | openR q => simp [writes_to]
  | openW q => simp [writes_to]
  | closeF q => simp [writes_to]
  | submit n => simp [writes_to]

theorem writes_to_append (p : PyStr) (a b : List Ev) :
    writes_to p (a ++ b) = writes_to p a ++ writes_to p b := by
  simp [writes_to]

theorem writes_to_map_writes (p : PyStr) (ws : List PyStr) :
    writes_to p (ws.map (fun l => Ev.writeF (some p) l)) = ws := by
  induction ws with
  | nil => rfl
  | cons w ws ih => simp [writes_to_cons, ih]

theorem one_exp_ok_replay (cfg : Cfg) (env : Env) (bk : Backend) (f p : PyStr)
    (hout : cfg.outfile_path = some p) (hjm : cfg.use_job_monitor = false)
    (hok : (one_exp cfg env (some bk) (some f)).1 = .ok ()) :
    replay_file p (one_exp cfg env (some bk) (some f)).2 =
      some (writes_to p (one_exp cfg env (some bk) (some f)).2) := by
  simp only [one_exp] at hok ⊢
  rcases hl : load_circuit cfg env (List.map py_strip (env.read_file f))
      (List.intercalate (S "\n") (List.map py_strip (env.read_file f))) with e₁ | c
  all_goals rw [hl] at hok
  all_goals dsimp only at hok ⊢
  · simp at hok
  · rcases hr : env.run_job (gpu_method cfg) [c] with m | res
    all_goals rw [hr] at hok
    all_goals dsimp only at hok ⊢
    · simp at hok
    · rw [jm_events_off cfg hjm, hout]
      simp [replay_file, List.foldl_append, rstep, foldl_rstep_writes,
        writes_to_cons, writes_to_append, writes_to_map_writes, writes_to]
      generalize process_result cfg bk env.now_iso (res c) c.qasm = ws
      induction ws with
      | nil => rfl
      | cons w ws ih =>
          rw [List.filterMap_cons]
          dsimp only [Function.comp_apply]
          rw [if_pos rfl]
          exact congrArg (List.cons w) ih

theorem one_exp_ok_shape (cfg : Cfg) (env : Env) (bk : Backend) (f p : PyStr)
    (hout : cfg.outfile_path = some p)
    (hok : (one_exp cfg env (some bk) (some f)).1 = .ok ()) :
    ∃ rest, (one_exp cfg env (some bk) (some f)).2 =
      Ev.openR f :: Ev.openW p :: rest := by
  simp only [one_exp] at hok ⊢
  rcases hl : load_circuit cfg env (List.map py_strip (env.read_file f))
      (List.intercalate (S "\n") (List.map py_strip (env.read_file f))) with e₁ | c
  all_goals rw [hl] at hok
  all_goals dsimp only at hok ⊢
  · simp at hok
  · rcases hr : env.run_job (gpu_method cfg) [c] with m | res
    all_goals rw [hr] at hok
    all_goals dsimp only at hok ⊢
    · simp at hok
    · rw [hout]
      exact ⟨_, rfl⟩

theorem exps_loop_cons_ok (cfg : Cfg) (env : Env) (bk : Backend) (f : PyStr)
    (fs : List PyStr)
    (hok1 : (one_exp cfg env (some bk) (some f)).1 = .ok ()) :
    exps_loop cfg env bk (f :: fs) =
      ((exps_loop cfg env bk fs).1,
        (one_exp cfg env (some bk) (some f)).2 ++ (exps_loop cfg env bk fs).2) := by
  simp only [exps_loop]
  rcases ho : one_exp cfg env (some bk) (some f) with ⟨r, evs⟩
  rw [ho] at hok1
  rcases r with e | u
  · simp at hok1
  · rfl

theorem exps_loop_ok_parts (cfg : Cfg) (env : Env) (bk : Backend) (f : PyStr)
    (fs : List PyStr)
    (hok : (exps_loop cfg env bk (f :: fs)).1 = .ok ()) :
    (one_exp cfg env (some bk) (some f)).1 = .ok () ∧
    (exps_loop cfg env bk fs).1 = .ok () := by
  simp only [exps_loop] at hok
  rcases ho : one_exp cfg env (some bk) (some f) with ⟨r, evs⟩
  rw [ho] at hok
  rcases r with e | u
  · simp at hok
  · exact ⟨rfl, hok⟩

theorem exps_loop_ok_head_shape (cfg : Cfg) (env : Env) (bk : Backend) (p : PyStr)
    (hout : cfg.outfile_path = some p) (h : PyStr) (t : List PyStr)
    (hok : (exps_loop cfg env bk (h :: t)).1 = .ok ()) :
    ∃ rest, (exps_loop cfg env bk (h :: t)).2 =
      Ev.openR h :: Ev.openW p :: rest := by
  obtain ⟨h1, _⟩ := exps_loop_ok_parts cfg env bk h t hok
  rw [exps_loop_cons_ok cfg env bk h t h1]
  obtain ⟨r1, hr1⟩ := one_exp_ok_shape cfg env bk h p hout h1
  exact ⟨r1 ++ (exps_loop cfg env bk t).2, by simp [hr1]⟩

theorem replay_from_openW (p : PyStr) (rest : List Ev) (st : Option (List PyStr)) :
    List.foldl (rstep p) st (Ev.openW p :: rest) =
      List.foldl (rstep p) (some []) rest := by
  rw [List.foldl_cons, rstep_openW_self]

theorem replay_append_loop (cfg : Cfg) (env : Env) (bk : Backend) (p : PyStr)
    (hout : cfg.outfile_path = some p) (A : List Ev) (l : List PyStr)
    (hne : l ≠ []) (hok : (exps_loop cfg env bk l).1 = .ok ()) :
    replay_file p (A ++ (exps_loop cfg env bk l).2) =
      replay_file p (exps_loop cfg env bk l).2 := by
  rcases l with _ | ⟨hd, tl⟩
  · exact absurd rfl hne
  · obtain ⟨rest, hshape⟩ := exps_loop_ok_head_shape cfg env bk p hout hd tl hok
    rw [hshape]
    unfold replay_file
    rw [List.foldl_append, List.foldl_cons, List.foldl_cons, rstep_openW_self,
      List.foldl_cons, replay_from_openW]

/-- C10: when several input filepaths are run as separate jobs (one job per
file) with an output file path configured, every per-file experiment reopens
the output file in truncating write mode (`'w'`, lines 1059-1062), so after a
fully successful run over `fs ++ [f]` the output file holds exactly the record
lines written by the last experiment `f` — each experiment's output overwrites
all earlier experiments' output rather than appending to it. -/
theorem claim_C10_overwrite (cfg : Cfg) (env : Env) (bk : Backend) (p : PyStr)
    (fs : List PyStr) (f : PyStr)
    (hout : cfg.outfile_path = some p) (hjm : cfg.use_job_monitor = false)
    (hok : (exps_loop cfg env bk (fs ++ [f])).1 = .ok ()) :
    replay_file p (exps_loop cfg env bk (fs ++ [f])).2 =
      some (writes_to p (one_exp cfg env (some bk) (some f)).2) := by
  induction fs with
  | nil =>
      simp only [List.nil_append] at hok ⊢
      obtain ⟨h1, _⟩ := exps_loop_ok_parts cfg env bk f [] hok
      rw [exps_loop_cons_ok cfg env bk f [] h1]
      dsimp only
      rw [show (exps_loop cfg env bk ([] : List PyStr)).2 = [] from rfl,
        List.append_nil]
      exact one_exp_ok_replay cfg env bk f p hout hjm h1
  | cons g gs ih =>
      simp only [List.cons_append] at hok ⊢
      obtain ⟨h1, h2⟩ := exps_loop_ok_parts cfg env bk g (gs ++ [f]) hok
      rw [exps_loop_cons_ok cfg env bk g (gs ++ [f]) h1]
      dsimp only
      rw [replay_append_loop cfg env bk p hout _ _ (by simp) h2]
      exact ih h2

theorem claim_C10_overwrite_witness :
    replay_file (S "out.csv")
        (exps_loop cfg_c10 env_c10 backend_w ([S "a.qasm"] ++ [S "b.qasm"])).2 =
      some (writes_to (S "out.csv")
        (one_exp cfg_c10 env_c10 (some backend_w) (some (S "b.qasm"))).2) :=
  claim_C10_overwrite cfg_c10 env_c10 backend_w (S "out.csv") [S "a.qasm"]
    (S "b.qasm") rfl rfl rfl
